import Mathlib

/-!
Shallow embedding of the preservation pipeline of the griot-and-grits backend
(`app/services/fixity_service.py`, `app/services/storage_location_service.py`,
`app/services/preservation_event_service.py`, `app/services/ingestion_service.py`,
`app/services/collection_service.py`, `app/services/db.py`).

Python dictionaries whose keys are strings are modelled as association lists
(`List (String × String)`), timestamps as natural numbers, and every fallible
collaborator call (database write, object-store upload, Globus listing) as an
explicit outcome value threaded into the function being modelled.
-/

/-- Checksum algorithms supported by the fixity engine
(`FixityAlgorithm` in `app/models/metadata.py`). -/
inductive FixityAlgorithm
  | md5
  | sha256
  | sha512
deriving DecidableEq

/-- Fixity record (`FixityInfo` in `app/models/metadata.py`); the two mandatory
checksums plus the algorithm list and the calculation timestamp. -/
structure FixityInfo where
  checksum_md5 : String
  checksum_sha256 : String
  algorithm : List FixityAlgorithm
  calculated_at : Nat
deriving DecidableEq

/-- Returns `true` exactly on an `Except.ok` value. -/
def exceptIsOk {ε α : Type} : Except ε α → Bool
  | .ok _ => true
  | .error _ => false

/-- `FixityService.generate_fixity_info`: raises (here: returns `.error`) when
the checksum map lacks an `md5` or a `sha256` entry, otherwise builds the
`FixityInfo` from the map's values.  The `algorithm` list mirrors the source:
after the guard both `md5` and `sha256` are present, so they are always
appended, and `sha512` is appended when present. -/
def generate_fixity_info (checksums : List (String × String)) (now : Nat) :
    Except String FixityInfo :=
  match checksums.lookup "md5", checksums.lookup "sha256" with
  | some m, some s =>
      .ok { checksum_md5 := m
            checksum_sha256 := s
            algorithm := [FixityAlgorithm.md5, FixityAlgorithm.sha256] ++
              (if (checksums.lookup "sha512").isSome then [FixityAlgorithm.sha512] else [])
            calculated_at := now }
  | _, _ => .error "Both MD5 and SHA-256 checksums are required for FixityInfo"

/-- The mismatch list built by `FixityService.verify_checksums`: one entry per
`expected` key that is absent from `actual`, one entry per key whose `actual`
value differs. -/
def checksum_mismatches : List (String × String) → List (String × String) → List String
  | [], _ => []
  | (algo, ev) :: rest, actual =>
    match actual.lookup algo with
    | none => (algo ++ ": not calculated") :: checksum_mismatches rest actual
    | some av =>
      if av ≠ ev then
        (algo ++ ": expected " ++ ev ++ ", got " ++ av) :: checksum_mismatches rest actual
      else
        checksum_mismatches rest actual

/-- `FixityService.verify_checksums`: returns `(len(mismatches) == 0, mismatches)`. -/
def verify_checksums (expected actual : List (String × String)) : Bool × List String :=
  (((checksum_mismatches expected actual).length == 0), checksum_mismatches expected actual)

/-- A calendar date reduced to the two fields `strftime` reads in
`build_storage_path` and `_build_archive_path`. -/
structure DateYM where
  year : Nat
  month : Nat
deriving DecidableEq

/-- One decimal digit character, `Char.ofNat (48 + n % 10)`. -/
def digitChar (n : Nat) : Char := Char.ofNat (48 + n % 10)

/-- Two-digit zero-padded decimal rendering, as `strftime("%m")` produces for
month values below 100. -/
def pad2 (n : Nat) : String := String.mk [digitChar (n / 10), digitChar n]

/-- Four-digit zero-padded decimal rendering, as `strftime("%Y")` produces for
year values below 10000. -/
def pad4 (n : Nat) : String :=
  String.mk [digitChar (n / 1000), digitChar (n / 100), digitChar (n / 10), digitChar n]

/-- Storage tier (`StorageType` in `app/models/metadata.py`). -/
inductive StorageType
  | hot
  | archive
deriving DecidableEq

/-- `StorageLocationService.build_storage_path` with the date supplied:
`artifacts/{year}/{month}/{artifact_id}/{filename}`.  The `storage_type`
argument is accepted but, as in the source, does not influence the path. -/
def build_storage_path (artifact_id filename : String) (_storage_type : StorageType)
    (date : DateYM) : String :=
  "artifacts/" ++ pad4 date.year ++ "/" ++ pad2 date.month ++ "/" ++ artifact_id ++ "/" ++ filename

/-- Artifact intake status (`ArtifactStatus` in `app/models/metadata.py`). -/
inductive ArtifactStatus
  | uploading
  | processing
  | ready
  | failed
  | archived
deriving DecidableEq

/-- One durable copy of an artifact's bytes (`StorageLocation` in
`app/models/metadata.py`). -/
structure StorageLocation where
  storage_type : StorageType
  path : String
  bucket : Option String
  endpoint : Option String
  size_bytes : Nat
  checksum_md5 : String
  checksum_sha256 : String
  created_at : Nat
  verified_at : Option Nat
deriving DecidableEq

/-- PREMIS event type (`PreservationEventType` in `app/models/metadata.py`). -/
inductive PreservationEventType
  | ingestion
  | validation
  | metadata_extraction
  | replication
  | fixity_check
  | format_migration
  | deletion
  | transcription
  | enhancement
deriving DecidableEq

/-- Event outcome (`PreservationEventOutcome` in `app/models/metadata.py`). -/
inductive PreservationEventOutcome
  | success
  | failure
  | warning
deriving DecidableEq

/-- Audit-trail record (`PreservationEvent` in `app/models/metadata.py`). -/
structure PreservationEvent where
  event_type : PreservationEventType
  timestamp : Nat
  agent : String
  outcome : PreservationEventOutcome
  detail : Option String
  related_object : Option String
deriving DecidableEq

/-- The slice of an artifact document that the preservation pipeline mutates. -/
structure ArtifactRec where
  status : ArtifactStatus
  fixity : Option FixityInfo
  storage_locations : List StorageLocation
  preservation_events : List PreservationEvent
deriving DecidableEq

/-- The `artifacts` collection of the document store, keyed by artifact id. -/
def ArtifactDb : Type := List (String × ArtifactRec)

/-- `Database.update_one` on the artifact matching `artifact_id`: applies `f`
to the matching document and reports whether a document matched
(`modified_count > 0`). -/
def db_update_artifact (db : ArtifactDb) (artifact_id : String)
    (f : ArtifactRec → ArtifactRec) : ArtifactDb × Bool :=
  (db.map (fun kv => if kv.1 = artifact_id then (kv.1, f kv.2) else kv),
   (db.lookup artifact_id).isSome)

/-- `StorageLocationService.register_location`: builds the `StorageLocation`
record and hands it to `Database.add_storage_location` (a `$push` update).
`write_fails` models the store write raising; in that case the error is
wrapped into a service error.  When the write does not raise, the function
returns the built location without consulting the update's matched count, so
an absent artifact leaves the store untouched yet still yields the location. -/
def register_location (db : ArtifactDb) (artifact_id : String)
    (storage_type : StorageType) (path : String) (size_bytes : Nat)
    (checksum_md5 checksum_sha256 : String) (bucket endpoint : Option String)
    (now : Nat) (write_fails : Bool) : ArtifactDb × Except String StorageLocation :=
  let location : StorageLocation :=
    { storage_type := storage_type
      path := path
      bucket := bucket
      endpoint := endpoint
      size_bytes := size_bytes
      checksum_md5 := checksum_md5
      checksum_sha256 := checksum_sha256
      created_at := now
      verified_at := none }
  if write_fails then
    (db, .error "Failed to register storage location: database write failed")
  else
    let pushed := db_update_artifact db artifact_id
      (fun a => { a with storage_locations := a.storage_locations ++ [location] })
    (pushed.1, .ok location)

/-- Outcome schedule of the collaborator calls a single
`IngestionService.ingest_artifact` invocation makes: `true` means the call
succeeds, `false` means it raises.  `failLogOk` and `failStatusOk` are the
two database writes issued inside the top-level `except` handler. -/
structure IngestEnv where
  readOk : Bool
  insertOk : Bool
  uploadOk : Bool
  registerOk : Bool
  logIngestOk : Bool
  statusOk : Bool
  failLogOk : Bool
  failStatusOk : Bool
deriving DecidableEq

/-- Error surfaced by an ingest invocation: `ingestion` is the
`IngestionServiceError` raised at the end of the handler, `collaborator` is an
error escaping the handler itself (one of its own writes raised). -/
inductive IngestErr
  | ingestion (msg : String)
  | collaborator (msg : String)
deriving DecidableEq

/-- Response body of a successful ingest (`IngestionResponse`). -/
structure IngestResponse where
  artifact_id : String
  status : ArtifactStatus
  storage_path : String
deriving DecidableEq

deriving instance DecidableEq for Except

/-- Observable result of one ingest invocation: the artifact document this
invocation created (if any) and the returned value or raised error. -/
structure IngestOutcome where
  artifact : Option ArtifactRec
  response : Except IngestErr IngestResponse
deriving DecidableEq

/-- The ingestion/`failure` event written by the top-level handler. -/
def ingestFailureEvent (msg agent : String) (now : Nat) : PreservationEvent :=
  { event_type := .ingestion
    timestamp := now
    agent := agent
    outcome := .failure
    detail := some ("Ingestion failed: " ++ msg)
    related_object := none }

/-- The ingestion/`success` event written by
`PreservationEventService.log_ingestion`. -/
def ingestSuccessEvent (storage_path agent : String) (now : Nat) : PreservationEvent :=
  { event_type := .ingestion
    timestamp := now
    agent := agent
    outcome := .success
    detail := some ("Artifact ingested to storage path: " ++ storage_path)
    related_object := some storage_path }

/-- The `except` handler of `ingest_artifact` once the artifact document
exists: log an ingestion/`failure` event, force status `failed`, re-raise an
`IngestionServiceError`.  Either handler write may itself raise, in which case
the rest of the handler does not run and that error propagates instead. -/
def ingest_fail_path (env : IngestEnv) (agent : String) (now : Nat) (msg : String)
    (a : ArtifactRec) : IngestOutcome :=
  if !env.failLogOk then
    { artifact := some a
      response := .error (.collaborator "Failed to log preservation event") }
  else
    let a1 := { a with preservation_events := a.preservation_events ++ [ingestFailureEvent msg agent now] }
    if !env.failStatusOk then
      { artifact := some a1, response := .error (.collaborator "database write failed") }
    else
      { artifact := some { a1 with status := .failed }
        response := .error (.ingestion ("Ingestion failed: " ++ msg)) }

/-- `IngestionService.ingest_artifact` over the schedule `env`.  The steps
mirror the source: read + checksums, `generate_fixity_info`, insert of the
`processing` artifact document, deterministic hot path, object-store upload,
`register_location`, `log_ingestion` success event, final status update
(`ready`, or `processing` when `enable_metadata_extraction` is set).  Any step
failing after the insert routes through `ingest_fail_path`. -/
def ingest_artifact (env : IngestEnv) (enable_metadata_extraction : Bool)
    (new_id filename md5 sha256 : String) (file_size : Nat) (date : DateYM)
    (bucket endpoint agent : String) (now : Nat) : IngestOutcome :=
  if !env.readOk then
    { artifact := none, response := .error (.ingestion "Ingestion failed: could not read upload") }
  else
    match generate_fixity_info [("md5", md5), ("sha256", sha256)] now with
    | .error e => { artifact := none, response := .error (.ingestion ("Ingestion failed: " ++ e)) }
    | .ok fixity =>
      if !env.insertOk then
        { artifact := none
          response := .error (.ingestion "Ingestion failed: database insert failed") }
      else
        let a0 : ArtifactRec :=
          { status := .processing
            fixity := some fixity
            storage_locations := []
            preservation_events := [] }
        let storage_path := build_storage_path new_id filename .hot date
        if !env.uploadOk then
          ingest_fail_path env agent now "Storage upload failed" a0
        else if !env.registerOk then
          ingest_fail_path env agent now "Failed to register storage location" a0
        else
          let loc : StorageLocation :=
            { storage_type := .hot
              path := storage_path
              bucket := some bucket
              endpoint := some endpoint
              size_bytes := file_size
              checksum_md5 := md5
              checksum_sha256 := sha256
              created_at := now
              verified_at := none }
          let a1 := { a0 with storage_locations := a0.storage_locations ++ [loc] }
          if !env.logIngestOk then
            ingest_fail_path env agent now "Failed to log preservation event" a1
          else
            let a2 := { a1 with preservation_events :=
              a1.preservation_events ++ [ingestSuccessEvent storage_path agent now] }
            if !env.statusOk then
              ingest_fail_path env agent now "database write failed" a2
            else
              let final := if enable_metadata_extraction then ArtifactStatus.processing
                           else ArtifactStatus.ready
              { artifact := some { a2 with status := final }
                response := .ok { artifact_id := new_id, status := final, storage_path := storage_path } }

/-- Number of hot-tier storage locations recorded on an artifact document. -/
def hotLocationCount (a : ArtifactRec) : Nat :=
  (a.storage_locations.filter (fun l => l.storage_type == StorageType.hot)).length

/-- Whether the artifact carries an `ingestion` event with the given outcome. -/
def hasIngEvent (a : ArtifactRec) (o : PreservationEventOutcome) : Bool :=
  a.preservation_events.any
    (fun e => e.event_type == PreservationEventType.ingestion && e.outcome == o)

/-- The terminal-state property the ingest contract promises for an artifact
document the caller can observe: `ready` (or `processing` when metadata
extraction is enabled) with exactly one hot-tier location and a success
ingestion event, or `failed` with a failure ingestion event. -/
def ingestTerminalOk (metaFlag : Bool) (a : ArtifactRec) : Prop :=
  ((a.status = .ready ∨ (metaFlag = true ∧ a.status = .processing))
    ∧ hotLocationCount a = 1 ∧ hasIngEvent a .success = true)
  ∨ (a.status = .failed ∧ hasIngEvent a .failure = true)

instance (metaFlag : Bool) (a : ArtifactRec) : Decidable (ingestTerminalOk metaFlag a) := by
  unfold ingestTerminalOk; infer_instance

/-- The ingest contract applied to the observable result of one invocation:
if an artifact document was created it satisfies `ingestTerminalOk`. -/
def ingestClaimAt (metaFlag : Bool) (out : IngestOutcome) : Prop :=
  match out.artifact with
  | some a => ingestTerminalOk metaFlag a
  | none => True

instance (metaFlag : Bool) (out : IngestOutcome) : Decidable (ingestClaimAt metaFlag out) := by
  unfold ingestClaimAt; cases out.artifact <;> infer_instance

/-- Entry type reported by `GlobusService.list_directory` for a direct child. -/
inductive EntryType
  | file
  | dir
deriving DecidableEq

/-- One direct child of a listed directory (`name`, `type`, `size` as built in
`GlobusService.list_directory`; `size` defaults to 0 there). -/
structure FsEntry where
  name : String
  etype : EntryType
  size : Nat
deriving DecidableEq

/-- Collection life-cycle status (`CollectionStatus` in
`app/models/collection.py`). -/
inductive CollectionStatus
  | draft
  | uploaded
  | verifying
  | sealed
  | failed
deriving DecidableEq

/-- The slice of a collection document that `finalize_collection` reads and
writes (`Collection` in `app/models/collection.py`). -/
structure CollectionRec where
  collection_id : String
  title : String
  slug : String
  status : CollectionStatus
  globus_path : String
  expected_artifact_count : Option Nat
  actual_artifact_count : Option Nat
  total_size_bytes : Option Nat
  verification_errors : List String
  has_manifest : Bool
  has_package_zip : Bool
  verified_at : Option Nat
  sealed_at : Option Nat
deriving DecidableEq

/-- The hard error recorded when `raw/` holds no file. -/
def emptyRawMsg : String :=
  "Error: raw/ folder is empty. Upload files to raw/ before finalizing."

/-- The soft warning recorded when no `manifest.json` file sits at the root. -/
def missingManifestMsg : String :=
  "Warning: manifest.json not found in root (recommended for preservation)"

/-- The synthetic message written when a Globus call raises during
verification. -/
def globusFailMsg (e : String) : String := "Globus verification failed: " ++ e

/-- `CollectionService.finalize_collection`, restricted to the schedules on
which every `db.update_collection` call succeeds.  The two directory listings
are the invocation's environment: `.ok` is the list returned by
`GlobusService.list_directory`, `.error` a `GlobusServiceError` it raised
(`raw/` is listed first, then the collection root).  The first component of
the result is the collection document after the invocation, the second the
returned collection or the raised `CollectionServiceError` message.  The
model that also threads the outcome of every database call is
`finalize_collection_full` below; `finalize_collection_as_full` proves this
function is its state projection on the all-success schedule. -/
def finalize_collection (coll : Option CollectionRec)
    (raw_listing root_listing : Except String (List FsEntry)) (now : Nat) :
    Option CollectionRec × Except String CollectionRec :=
  match coll with
  | none => (none, .error "Collection not found")
  | some c0 =>
    let c := { c0 with status := CollectionStatus.verifying }
    match raw_listing with
    | .error e =>
        (some { c with status := .failed, verification_errors := [globusFailMsg e] },
         .error (globusFailMsg e))
    | .ok raw_files =>
      match root_listing with
      | .error e =>
          (some { c with status := .failed, verification_errors := [globusFailMsg e] },
           .error (globusFailMsg e))
      | .ok root_files =>
        let root_file_names := (root_files.filter (fun f => f.etype == EntryType.file)).map (·.name)
        let has_manifest := root_file_names.contains "manifest.json"
        let raw_file_list := raw_files.filter (fun f => f.etype == EntryType.file)
        let raw_file_count := raw_file_list.length
        let total_size := (raw_file_list.map (·.size)).sum
        let warnings := if !has_manifest then [missingManifestMsg] else []
        let verification_errors := if raw_file_count == 0 then [emptyRawMsg] else []
        let status := if verification_errors.isEmpty then CollectionStatus.sealed
                      else CollectionStatus.failed
        let all_messages := verification_errors ++ warnings
        let updated := { c with
          status := status
          has_manifest := has_manifest
          has_package_zip := false
          total_size_bytes := some total_size
          actual_artifact_count := some raw_file_count
          verified_at := some now
          verification_errors := all_messages
          sealed_at := if status == CollectionStatus.sealed then some now else c.sealed_at }
        (some updated, .ok updated)

/-- Characters the slug keeps: the regex class `[a-z0-9]` of `_generate_slug`. -/
def isSlugChar (c : Char) : Bool :=
  ('a' ≤ c && c ≤ 'z') || ('0' ≤ c && c ≤ '9')

/-- The effect of `re.sub(r'[^a-z0-9]+', '-', s)`: slug characters pass
through, every maximal run of other characters becomes a single `'-'`.  The
flag records whether the previous character belonged to such a run. -/
def collapseRuns : Bool → List Char → List Char
  | _, [] => []
  | inRun, c :: cs =>
    if isSlugChar c then c :: collapseRuns false cs
    else if inRun then collapseRuns inRun cs
    else '-' :: collapseRuns true cs

/-- Python's `str.strip('-')`: removes leading and trailing dashes. -/
def stripDashes (l : List Char) : List Char :=
  (((l.dropWhile (· == '-')).reverse).dropWhile (· == '-')).reverse

/-- `CollectionService._generate_slug`: lowercase, collapse non-alphanumeric
runs to `'-'`, strip dashes, cap at 50 characters.  `Char.toLower` matches
`str.lower` on the ASCII range. -/
def generate_slug (title : String) : String :=
  String.mk ((stripDashes (collapseRuns false (title.data.map Char.toLower))).take 50)

/-- Maximal runs of slug characters of a string, in order.  Used only to
state the specification reading of `_generate_slug`. -/
def alnumWords : List Char → List (List Char)
  | [] => []
  | c :: cs =>
    if isSlugChar c then
      (c :: cs.takeWhile isSlugChar) :: alnumWords (cs.dropWhile isSlugChar)
    else
      alnumWords cs
termination_by l => l.length
decreasing_by
  · simp only [List.length_cons]
    exact Nat.lt_succ_of_le (List.dropWhile_sublist isSlugChar).length_le
  · simp only [List.length_cons]
    exact Nat.lt_succ_self _

/-- Joins words with single dashes. -/
def joinWords : List (List Char) → List Char
  | [] => []
  | [w] => w
  | w :: ws => w ++ '-' :: joinWords ws

/-- Specification reading of the slug derivation ("lowercase the title,
collapse every run of non-alphanumeric characters to a single `-`, trim
leading and trailing `-`, cap at 50 characters"): the maximal alphanumeric
runs of the lowercased title joined by single dashes, capped at 50. -/
def slug_spec (title : String) : String :=
  String.mk ((joinWords (alnumWords (title.data.map Char.toLower))).take 50)

/-- Python's `str.rstrip('/')`: removes trailing slashes. -/
def rstripSlash (s : String) : String :=
  String.mk ((s.data.reverse.dropWhile (· == '/')).reverse)

/-- `CollectionService._build_archive_path`:
`{base_path.rstrip('/')}/{YYYY-MM}/{slug}/` with the month taken from the
draft-time clock. -/
def build_archive_path (base_path : String) (now : DateYM) (slug : String) : String :=
  rstripSlash base_path ++ "/" ++ pad4 now.year ++ "-" ++ pad2 now.month ++ "/" ++ slug ++ "/"

/-- Slug selection in `CollectionService.create_draft`: the caller-supplied
slug if any, else the derived one; a colliding slug gets a random suffix
(modelled by `collides` and `suffix`). -/
def draft_slug (requested : Option String) (title : String) (collides : Bool)
    (suffix : String) : String :=
  let slug := match requested with
              | some s => s
              | none => generate_slug title
  if collides then slug ++ "-" ++ suffix else slug

/-- C5: `generate_fixity_info` fails exactly when the checksum map lacks an
`md5` entry or lacks a `sha256` entry; when both are present it returns a
`FixityInfo` whose `checksum_md5` and `checksum_sha256` equal the input
values unchanged. -/
theorem generate_fixity_info_md5_sha256 (cs : List (String × String)) (now : Nat)
    (m s : String) :
    (exceptIsOk (generate_fixity_info cs now) = false ↔
      (cs.lookup "md5" = none ∨ cs.lookup "sha256" = none))
    ∧ (cs.lookup "md5" = some m → cs.lookup "sha256" = some s →
        (generate_fixity_info cs now).toOption.map (·.checksum_md5) = some m
        ∧ (generate_fixity_info cs now).toOption.map (·.checksum_sha256) = some s) := by
  constructor
  · cases h1 : cs.lookup "md5" <;> cases h2 : cs.lookup "sha256" <;>
      simp [generate_fixity_info, h1, h2, exceptIsOk]
  · intro h1 h2
    simp [generate_fixity_info, h1, h2, Except.toOption]

/-- C5 witness: both checksums present are preserved. -/
theorem generate_fixity_info_md5_sha256_witness :
    (generate_fixity_info [("md5", "a"), ("sha256", "b")] 0).toOption.map (·.checksum_md5) = some "a"
    ∧ (generate_fixity_info [("md5", "a"), ("sha256", "b")] 0).toOption.map (·.checksum_sha256) = some "b" :=
  (generate_fixity_info_md5_sha256 [("md5", "a"), ("sha256", "b")] 0 "a" "b").2
    (by decide) (by decide)

/-- Every `expected` key absent from `actual` contributes its mismatch line. -/
theorem mem_mismatches_of_missing (actual : List (String × String)) (k v : String) :
    ∀ expected : List (String × String), (k, v) ∈ expected → actual.lookup k = none →
      (k ++ ": not calculated") ∈ checksum_mismatches expected actual := by
  intro expected
  induction expected with
  | nil => intro h; simp at h
  | cons hd tl ih =>
    intro hmem hlk
    rcases List.mem_cons.mp hmem with heq | htl
    · subst heq
      simp only [checksum_mismatches, hlk]
      exact List.mem_cons_self _ _
    · obtain ⟨ka, va⟩ := hd
      simp only [checksum_mismatches]
      cases h : actual.lookup ka with
      | none => exact List.mem_cons_of_mem _ (ih htl hlk)
      | some av =>
        by_cases hne : av ≠ va
        · simp only [if_pos hne]
          exact List.mem_cons_of_mem _ (ih htl hlk)
        · simp only [if_neg hne]
          exact ih htl hlk

/-- Every `expected` key whose `actual` value differs contributes its
mismatch line. -/
theorem mem_mismatches_of_differs (actual : List (String × String)) (k v v' : String) :
    ∀ expected : List (String × String), (k, v) ∈ expected → actual.lookup k = some v' →
      v' ≠ v → (k ++ ": expected " ++ v ++ ", got " ++ v') ∈ checksum_mismatches expected actual := by
  intro expected
  induction expected with
  | nil => intro h; simp at h
  | cons hd tl ih =>
    intro hmem hlk hne
    rcases List.mem_cons.mp hmem with heq | htl
    · subst heq
      simp only [checksum_mismatches, hlk, if_pos hne]
      exact List.mem_cons_self _ _
    · obtain ⟨ka, va⟩ := hd
      simp only [checksum_mismatches]
      cases h : actual.lookup ka with
      | none => exact List.mem_cons_of_mem _ (ih htl hlk hne)
      | some av =>
        by_cases hne' : av ≠ va
        · simp only [if_pos hne']
          exact List.mem_cons_of_mem _ (ih htl hlk hne)
        · simp only [if_neg hne']
          exact ih htl hlk hne

/-- C7: `verify_checksums` reports `all_match = true` exactly when its
mismatch list is empty, and the mismatch list records every expected
algorithm that is missing from `actual` and every algorithm whose actual
value differs from the expected one. -/
theorem verify_checksums_reports_mismatches (expected actual : List (String × String))
    (k v v' : String) :
    ((verify_checksums expected actual).1 = true ↔ (verify_checksums expected actual).2 = [])
    ∧ ((k, v) ∈ expected → actual.lookup k = none →
        (k ++ ": not calculated") ∈ (verify_checksums expected actual).2)
    ∧ ((k, v) ∈ expected → actual.lookup k = some v' → v' ≠ v →
        (k ++ ": expected " ++ v ++ ", got " ++ v') ∈ (verify_checksums expected actual).2) := by
  refine ⟨?_, ?_, ?_⟩
  · simp [verify_checksums, List.length_eq_zero]
  · intro hmem hlk
    exact mem_mismatches_of_missing actual k v expected hmem hlk
  · intro hmem hlk hne
    exact mem_mismatches_of_differs actual k v v' expected hmem hlk hne

/-- C7 witness: one missing algorithm and one differing value are both
reported, and `all_match` agrees with emptiness of the list. -/
theorem verify_checksums_reports_mismatches_witness :
    (("md5" ++ ": not calculated") ∈
      (verify_checksums [("md5", "x"), ("sha256", "y")] [("sha256", "z")]).2)
    ∧ (("sha256" ++ ": expected " ++ "y" ++ ", got " ++ "z") ∈
      (verify_checksums [("md5", "x"), ("sha256", "y")] [("sha256", "z")]).2) :=
  ⟨(verify_checksums_reports_mismatches [("md5", "x"), ("sha256", "y")] [("sha256", "z")]
      "md5" "x" "z").2.1 (by decide) (by decide),
   (verify_checksums_reports_mismatches [("md5", "x"), ("sha256", "y")] [("sha256", "z")]
      "sha256" "y" "z").2.2 (by decide) (by decide) (by decide)⟩

/-- Numeric value of a digit character produced by `digitChar`. -/
theorem digitChar_toNat (n : Nat) : (digitChar n).toNat = 48 + n % 10 := by
  have key : ∀ k, k < 10 → (Char.ofNat (48 + k)).toNat = 48 + k := by decide
  exact key _ (Nat.mod_lt _ (by decide))

/-- `pad4` is injective below 10000. -/
theorem pad4_inj {a b : Nat} (ha : a < 10000) (hb : b < 10000) (h : pad4 a = pad4 b) :
    a = b := by
  rw [pad4, pad4] at h
  injection h with hdata
  simp only [List.cons.injEq, and_true] at hdata
  obtain ⟨h1, h2, h3, h4⟩ := hdata
  have e1 := congrArg Char.toNat h1
  have e2 := congrArg Char.toNat h2
  have e3 := congrArg Char.toNat h3
  have e4 := congrArg Char.toNat h4
  rw [digitChar_toNat, digitChar_toNat] at e1 e2 e3 e4
  omega

/-- `pad2` is injective below 100. -/
theorem pad2_inj {a b : Nat} (ha : a < 100) (hb : b < 100) (h : pad2 a = pad2 b) :
    a = b := by
  rw [pad2, pad2] at h
  injection h with hdata
  simp only [List.cons.injEq, and_true] at hdata
  obtain ⟨h1, h2⟩ := hdata
  have e1 := congrArg Char.toNat h1
  have e2 := congrArg Char.toNat h2
  rw [digitChar_toNat, digitChar_toNat] at e1 e2
  omega

/-- Equal storage paths have equal year and month segments: the fixed-width
year and month renderings can be read back off the path. -/
theorem build_storage_path_segments (a f : String) (st : StorageType) (d1 d2 : DateYM)
    (h : build_storage_path a f st d1 = build_storage_path a f st d2) :
    pad4 d1.year = pad4 d2.year ∧ pad2 d1.month = pad2 d2.month := by
  have hd := congrArg String.data h
  simp only [build_storage_path, String.data_append, List.append_assoc] at hd
  have h1 := (List.append_right_inj _).mp hd
  have hy : (pad4 d1.year).data = (pad4 d2.year).data := List.append_inj_left h1 rfl
  have h2 := List.append_inj_right h1 rfl
  have h3 := (List.append_right_inj _).mp h2
  have hm : (pad2 d1.month).data = (pad2 d2.month).data := List.append_inj_left h3 rfl
  exact ⟨congrArg String.mk hy, congrArg String.mk hm⟩

/-- C8: with the date supplied, `build_storage_path` returns exactly the
string `artifacts/{year}/{month}/{artifact_id}/{filename}` with year and month
rendered from the supplied date (hence it is deterministic in its inputs);
dates differing in year give paths with different year segments, dates
differing in month give paths with different month segments, and in either
case the paths themselves differ. -/
theorem build_storage_path_partitioning (a f : String) (st : StorageType)
    (d1 d2 : DateYM) (hy1 : d1.year < 10000) (hy2 : d2.year < 10000)
    (hm1 : d1.month < 100) (hm2 : d2.month < 100) :
    build_storage_path a f st d1 =
      "artifacts/" ++ pad4 d1.year ++ "/" ++ pad2 d1.month ++ "/" ++ a ++ "/" ++ f
    ∧ (d1.year ≠ d2.year →
        pad4 d1.year ≠ pad4 d2.year
        ∧ build_storage_path a f st d1 ≠ build_storage_path a f st d2)
    ∧ (d1.month ≠ d2.month →
        pad2 d1.month ≠ pad2 d2.month
        ∧ build_storage_path a f st d1 ≠ build_storage_path a f st d2) := by
  refine ⟨rfl, ?_, ?_⟩
  · intro hne
    refine ⟨fun hp => hne (pad4_inj hy1 hy2 hp), fun hpath => ?_⟩
    exact hne (pad4_inj hy1 hy2 (build_storage_path_segments a f st d1 d2 hpath).1)
  · intro hne
    refine ⟨fun hp => hne (pad2_inj hm1 hm2 hp), fun hpath => ?_⟩
    exact hne (pad2_inj hm1 hm2 (build_storage_path_segments a f st d1 d2 hpath).2)

/-- C8 witness: the path format at a concrete date, and two dates differing
in year and month give different paths. -/
theorem build_storage_path_partitioning_witness :
    build_storage_path "a1" "f.mp3" StorageType.hot ⟨2020, 5⟩ =
      "artifacts/" ++ pad4 2020 ++ "/" ++ pad2 5 ++ "/" ++ "a1" ++ "/" ++ "f.mp3"
    ∧ (2020 ≠ 2021 →
        pad4 2020 ≠ pad4 2021
        ∧ build_storage_path "a1" "f.mp3" StorageType.hot ⟨2020, 5⟩ ≠
          build_storage_path "a1" "f.mp3" StorageType.hot ⟨2021, 6⟩)
    ∧ (5 ≠ 6 →
        pad2 5 ≠ pad2 6
        ∧ build_storage_path "a1" "f.mp3" StorageType.hot ⟨2020, 5⟩ ≠
          build_storage_path "a1" "f.mp3" StorageType.hot ⟨2021, 6⟩) :=
  build_storage_path_partitioning "a1" "f.mp3" StorageType.hot ⟨2020, 5⟩ ⟨2021, 6⟩
    (by decide) (by decide) (by decide) (by decide)

/-- A `$push` update on an id absent from the store leaves it unchanged. -/
theorem db_update_artifact_absent (aid : String) (f : ArtifactRec → ArtifactRec) :
    ∀ db : ArtifactDb, db.lookup aid = none → (db_update_artifact db aid f).1 = db := by
  intro db
  induction db with
  | nil => intro _; rfl
  | cons kv tl ih =>
    intro h
    obtain ⟨k, v⟩ := kv
    cases h' : (aid == k) with
    | true => simp [List.lookup, h'] at h
    | false =>
      have hne : ¬(k = aid) := by
        intro heq
        subst heq
        simp at h'
      have htl : List.lookup aid tl = none := by
        simpa [List.lookup, h'] using h
      have ihtl : List.map (fun kv => if kv.1 = aid then (kv.1, f kv.2) else kv) tl = tl :=
        ih htl
      show List.map (fun kv => if kv.1 = aid then (kv.1, f kv.2) else kv) ((k, v) :: tl) =
        (k, v) :: tl
      rw [List.map_cons, ihtl]
      simp [hne]

/-- C4 counterexample: with an empty artifact store, `"a1"` refers to no
existing artifact, yet `register_location` returns normally with the built
`StorageLocation` (no `NotFoundError`), leaving the store unchanged. -/
theorem register_location_missing_artifact_counterexample :
    List.lookup "a1" ([] : List (String × ArtifactRec)) = none
    ∧ exceptIsOk (register_location ([] : ArtifactDb) "a1" StorageType.hot "p" 1 "m" "s"
        none none 0 false).2 = true
    ∧ (register_location ([] : ArtifactDb) "a1" StorageType.hot "p" 1 "m" "s"
        none none 0 false).1 = ([] : ArtifactDb) :=
  ⟨rfl, rfl, rfl⟩

/-- C4 (amended): `register_location` fails with a wrapped persistence error
exactly when the store write raises (and then leaves the store unchanged);
when the write does not raise it returns the built `StorageLocation` whether
or not the artifact exists, and for an absent artifact the write matches no
document, leaving the store unchanged — no `NotFoundError` is raised. -/
theorem register_location_behaviour (db : ArtifactDb) (artifact_id : String)
    (st : StorageType) (path : String) (sz : Nat) (m s : String)
    (bucket endpoint : Option String) (now : Nat) (wf : Bool) :
    (wf = true →
      register_location db artifact_id st path sz m s bucket endpoint now wf =
        (db, .error "Failed to register storage location: database write failed"))
    ∧ (wf = false →
        (register_location db artifact_id st path sz m s bucket endpoint now wf).2 =
          .ok { storage_type := st, path := path, bucket := bucket, endpoint := endpoint,
                size_bytes := sz, checksum_md5 := m, checksum_sha256 := s,
                created_at := now, verified_at := none }
        ∧ (db.lookup artifact_id = none →
            (register_location db artifact_id st path sz m s bucket endpoint now wf).1 = db)) := by
  constructor
  · intro hwf
    subst hwf
    rfl
  · intro hwf
    subst hwf
    refine ⟨rfl, fun habs => ?_⟩
    exact db_update_artifact_absent artifact_id
      (fun a => { a with storage_locations := a.storage_locations ++
        [{ storage_type := st, path := path, bucket := bucket, endpoint := endpoint,
           size_bytes := sz, checksum_md5 := m, checksum_sha256 := s,
           created_at := now, verified_at := none }] }) db habs

/-- C4 witness (amended claim): on an empty store the write matches nothing,
the location is still returned, and the store is unchanged. -/
theorem register_location_behaviour_witness :
    (register_location ([] : ArtifactDb) "a1" StorageType.hot "p" 3 "m" "s" none none 0 false).2 =
      .ok { storage_type := StorageType.hot, path := "p", bucket := none, endpoint := none,
            size_bytes := 3, checksum_md5 := "m", checksum_sha256 := "s",
            created_at := 0, verified_at := none }
    ∧ (register_location ([] : ArtifactDb) "a1" StorageType.hot "p" 3 "m" "s" none none 0 false).1 =
      ([] : ArtifactDb) :=
  ⟨((register_location_behaviour [] "a1" StorageType.hot "p" 3 "m" "s" none none 0 false).2 rfl).1,
   ((register_location_behaviour [] "a1" StorageType.hot "p" 3 "m" "s" none none 0 false).2 rfl).2
     (by decide)⟩

/-- A listing whose entries are all directories has no file entries. -/
theorem filter_file_nil_of_all_dir (l : List FsEntry)
    (h : l.all (fun f => f.etype == EntryType.dir) = true) :
    l.filter (fun f => f.etype == EntryType.file) = [] := by
  rw [List.filter_eq_nil_iff]
  intro a ha
  have hd : a.etype = EntryType.dir := by
    have := (List.all_eq_true.mp h) a ha
    simpa using this
  simp [hd]

/-- A concrete collection document in `DRAFT` state. -/
def sampleCollection : CollectionRec :=
  { collection_id := "coll_1", title := "T", slug := "t", status := .draft,
    globus_path := "/archive/2025-01/t/", expected_artifact_count := none,
    actual_artifact_count := none, total_size_bytes := none, verification_errors := [],
    has_manifest := false, has_package_zip := false, verified_at := none, sealed_at := none }

/-- C2: finalize on a collection whose `raw/` listing holds zero files sets
status `FAILED`, records a non-empty `verification_errors` containing the
empty-raw-folder message, and leaves `sealed_at` unchanged (never stamps it). -/
theorem finalize_empty_raw_fails (c : CollectionRec) (rawE rootE : List FsEntry) (now : Nat)
    (h : rawE.filter (fun f => f.etype == EntryType.file) = []) :
    ((finalize_collection (some c) (.ok rawE) (.ok rootE) now).1.map (·.status) =
      some CollectionStatus.failed)
    ∧ ((finalize_collection (some c) (.ok rawE) (.ok rootE) now).1.map
        (fun x => x.verification_errors.isEmpty) = some false)
    ∧ ((finalize_collection (some c) (.ok rawE) (.ok rootE) now).1.map
        (fun x => x.verification_errors.contains emptyRawMsg) = some true)
    ∧ ((finalize_collection (some c) (.ok rawE) (.ok rootE) now).1.map (·.sealed_at) =
      some c.sealed_at) := by
  refine ⟨?_, ?_, ?_, ?_⟩ <;> simp [finalize_collection, h]

/-- C2 witness: a draft collection with an empty raw listing. -/
theorem finalize_empty_raw_fails_witness :
    ((finalize_collection (some sampleCollection) (.ok []) (.ok []) 7).1.map (·.status) =
      some CollectionStatus.failed)
    ∧ ((finalize_collection (some sampleCollection) (.ok []) (.ok []) 7).1.map
        (fun x => x.verification_errors.isEmpty) = some false)
    ∧ ((finalize_collection (some sampleCollection) (.ok []) (.ok []) 7).1.map
        (fun x => x.verification_errors.contains emptyRawMsg) = some true)
    ∧ ((finalize_collection (some sampleCollection) (.ok []) (.ok []) 7).1.map (·.sealed_at) =
      some sampleCollection.sealed_at) :=
  finalize_empty_raw_fails sampleCollection [] [] 7 rfl

/-- C6: finalize on a collection whose `raw/` listing holds at least one file
and whose root listing has no file named `manifest.json` seals the collection:
status `SEALED`, `sealed_at` stamped, and `verification_errors` holding
exactly the missing-manifest warning (no blocking error). -/
theorem finalize_seals_with_manifest_warning (c : CollectionRec) (rawE rootE : List FsEntry)
    (now : Nat)
    (h1 : (rawE.filter (fun f => f.etype == EntryType.file)).length ≠ 0)
    (h2 : ((rootE.filter (fun f => f.etype == EntryType.file)).map (·.name)).contains
      "manifest.json" = false) :
    ((finalize_collection (some c) (.ok rawE) (.ok rootE) now).1.map (·.status) =
      some CollectionStatus.sealed)
    ∧ ((finalize_collection (some c) (.ok rawE) (.ok rootE) now).1.map (·.sealed_at) =
      some (some now))
    ∧ ((finalize_collection (some c) (.ok rawE) (.ok rootE) now).1.map (·.verification_errors) =
      some [missingManifestMsg]) := by
  have h2' : ∀ x ∈ rootE, x.etype = EntryType.file → ¬ x.name = "manifest.json" := by
    simpa using h2
  refine ⟨?_, ?_, ?_⟩
  · simp [finalize_collection, h1]
  · simp [finalize_collection, h1]
  · simp [finalize_collection, h1]
    exact h2'

/-- C6 witness: one raw file, no manifest at the root. -/
theorem finalize_seals_with_manifest_warning_witness :
    ((finalize_collection (some sampleCollection) (.ok [⟨"a.mp3", .file, 10⟩]) (.ok []) 7).1.map
      (·.status) = some CollectionStatus.sealed)
    ∧ ((finalize_collection (some sampleCollection) (.ok [⟨"a.mp3", .file, 10⟩]) (.ok []) 7).1.map
      (·.sealed_at) = some (some 7))
    ∧ ((finalize_collection (some sampleCollection) (.ok [⟨"a.mp3", .file, 10⟩]) (.ok []) 7).1.map
      (·.verification_errors) = some [missingManifestMsg]) :=
  finalize_seals_with_manifest_warning sampleCollection [⟨"a.mp3", .file, 10⟩] [] 7
    (by decide) (by decide)

/-- C10: only direct children of `raw/` whose entry type is `file` are
counted: the artifact count is the number of file entries and the total size
sums only file entries, so a `raw/` listing holding only directories is
treated as empty and the collection fails verification. -/
theorem finalize_counts_direct_files_only (c : CollectionRec) (rawE rootE : List FsEntry)
    (now : Nat) :
    ((finalize_collection (some c) (.ok rawE) (.ok rootE) now).1.map (·.actual_artifact_count) =
      some (some (rawE.filter (fun f => f.etype == EntryType.file)).length))
    ∧ ((finalize_collection (some c) (.ok rawE) (.ok rootE) now).1.map (·.total_size_bytes) =
      some (some ((rawE.filter (fun f => f.etype == EntryType.file)).map (·.size)).sum))
    ∧ (rawE.all (fun f => f.etype == EntryType.dir) = true →
        ((finalize_collection (some c) (.ok rawE) (.ok rootE) now).1.map
          (·.actual_artifact_count) = some (some 0))
        ∧ ((finalize_collection (some c) (.ok rawE) (.ok rootE) now).1.map (·.status) =
          some CollectionStatus.failed)) := by
  refine ⟨?_, ?_, fun hall => ?_⟩
  · simp [finalize_collection]
  · simp [finalize_collection]
  · have hfil := filter_file_nil_of_all_dir rawE hall
    constructor <;> simp [finalize_collection, hfil]

/-- C10 witness: a raw listing holding one directory of size 10 and nothing
else is treated as empty, ignoring the directory's size. -/
theorem finalize_counts_direct_files_only_witness :
    ((finalize_collection (some sampleCollection) (.ok [⟨"sub", .dir, 10⟩]) (.ok []) 7).1.map
      (·.actual_artifact_count) =
      some (some (([⟨"sub", .dir, 10⟩] : List FsEntry).filter
        (fun f => f.etype == EntryType.file)).length))
    ∧ ((finalize_collection (some sampleCollection) (.ok [⟨"sub", .dir, 10⟩]) (.ok []) 7).1.map
      (·.total_size_bytes) =
      some (some ((([⟨"sub", .dir, 10⟩] : List FsEntry).filter
        (fun f => f.etype == EntryType.file)).map (·.size)).sum))
    ∧ ((finalize_collection (some sampleCollection) (.ok [⟨"sub", .dir, 10⟩]) (.ok []) 7).1.map
      (·.actual_artifact_count) = some (some 0))
    ∧ ((finalize_collection (some sampleCollection) (.ok [⟨"sub", .dir, 10⟩]) (.ok []) 7).1.map
      (·.status) = some CollectionStatus.failed) :=
  ⟨(finalize_counts_direct_files_only sampleCollection [⟨"sub", .dir, 10⟩] [] 7).1,
   (finalize_counts_direct_files_only sampleCollection [⟨"sub", .dir, 10⟩] [] 7).2.1,
   ((finalize_counts_direct_files_only sampleCollection [⟨"sub", .dir, 10⟩] [] 7).2.2
     (by decide)).1,
   ((finalize_counts_direct_files_only sampleCollection [⟨"sub", .dir, 10⟩] [] 7).2.2
     (by decide)).2⟩

/-- The fixity record built during ingest: both mandatory checksums are in
the map, so `generate_fixity_info` cannot fail there. -/
theorem generate_fixity_ingest (md5 sha256 : String) (now : Nat) :
    generate_fixity_info [("md5", md5), ("sha256", sha256)] now =
      .ok { checksum_md5 := md5, checksum_sha256 := sha256,
            algorithm := [FixityAlgorithm.md5, FixityAlgorithm.sha256],
            calculated_at := now } := rfl

/-- A schedule on which the upload raises and the failure handler's own
event write then raises as well. -/
def ingestDoubleFaultEnv : IngestEnv :=
  { readOk := true, insertOk := true, uploadOk := false, registerOk := true,
    logIngestOk := true, statusOk := true, failLogOk := false, failStatusOk := true }

/-- C1 counterexample: under `ingestDoubleFaultEnv` the artifact record is
created (read and insert succeed) but the invocation ends with the artifact
still in `processing` — neither the `ready` nor the `failed` terminal shape
promised by the claim — because the handler's event write raised before the
status could be forced to `failed`. -/
theorem ingest_terminal_counterexample :
    ingestDoubleFaultEnv.insertOk = true
    ∧ ¬ ingestClaimAt false
        (ingest_artifact ingestDoubleFaultEnv false "art1" "f.bin" "m" "s" 10 ⟨2020, 1⟩
          "bucket" "endpoint" "api" 0) := by
  refine ⟨rfl, ?_⟩
  decide

/-- C1 (amended): on every schedule whose failure-handler writes succeed, an
invocation that created the artifact record (read and insert succeeded)
terminates with the artifact observable and in a terminal shape — `ready` (or
`processing` when metadata extraction is enabled) with exactly one hot-tier
location and a success ingestion event, or `failed` with a failure ingestion
event; a failure before the record exists leaves no artifact observable and
propagates the error. -/
theorem ingest_terminal_state (env : IngestEnv) (flag : Bool)
    (new_id filename md5 sha256 : String) (file_size : Nat) (date : DateYM)
    (bucket endpoint agent : String) (now : Nat)
    (hfl : env.failLogOk = true) (hfs : env.failStatusOk = true) :
    ((env.readOk = false ∨ env.insertOk = false) →
      (ingest_artifact env flag new_id filename md5 sha256 file_size date bucket endpoint
        agent now).artifact = none
      ∧ exceptIsOk (ingest_artifact env flag new_id filename md5 sha256 file_size date bucket
          endpoint agent now).response = false)
    ∧ (env.readOk = true → env.insertOk = true →
        (ingest_artifact env flag new_id filename md5 sha256 file_size date bucket endpoint
          agent now).artifact ≠ none
        ∧ ingestClaimAt flag (ingest_artifact env flag new_id filename md5 sha256 file_size
            date bucket endpoint agent now)) := by
  cases hr : env.readOk <;> cases hi : env.insertOk <;> cases hu : env.uploadOk <;>
    cases hg : env.registerOk <;> cases hl : env.logIngestOk <;> cases hst : env.statusOk <;>
    cases flag <;>
    simp [ingest_artifact, ingest_fail_path, ingestClaimAt, ingestTerminalOk, hotLocationCount,
      hasIngEvent, generate_fixity_ingest, ingestFailureEvent, ingestSuccessEvent,
      hr, hi, hu, hg, hl, hst, hfl, hfs, exceptIsOk]

/-- The schedule on which every collaborator call succeeds. -/
def ingestAllOkEnv : IngestEnv :=
  { readOk := true, insertOk := true, uploadOk := true, registerOk := true,
    logIngestOk := true, statusOk := true, failLogOk := true, failStatusOk := true }

/-- C1 witness (amended claim): on the all-success schedule the created
artifact is observable and in a terminal shape. -/
theorem ingest_terminal_state_witness :
    (ingest_artifact ingestAllOkEnv false "art1" "f.bin" "m" "s" 10 ⟨2020, 1⟩
      "bucket" "endpoint" "api" 0).artifact ≠ none
    ∧ ingestClaimAt false (ingest_artifact ingestAllOkEnv false "art1" "f.bin" "m" "s" 10
        ⟨2020, 1⟩ "bucket" "endpoint" "api" 0) :=
  (ingest_terminal_state ingestAllOkEnv false "art1" "f.bin" "m" "s" 10 ⟨2020, 1⟩
    "bucket" "endpoint" "api" 0 rfl rfl).2 rfl rfl

/-- A slug character is not a dash. -/
theorem isSlugChar_ne_dash {c : Char} (h : isSlugChar c = true) : (c == '-') = false := by
  by_contra hbe
  rw [Bool.not_eq_false, beq_iff_eq] at hbe
  subst hbe
  exact absurd h (by decide)

/-- The collapsed form of a string already inside a run never starts with a
dash, so stripping leading dashes from it is the identity. -/
theorem dropDash_collapseTrue (l : List Char) :
    (collapseRuns true l).dropWhile (· == '-') = collapseRuns true l := by
  induction l with
  | nil => rfl
  | cons c cs ih =>
    by_cases hc : isSlugChar c
    · simp [collapseRuns, hc, List.dropWhile_cons, isSlugChar_ne_dash hc]
    · simp [collapseRuns, hc, ih]

/-- Stripping leading dashes from the collapsed form equals collapsing as if
already inside a run. -/
theorem dropDash_collapseFalse (l : List Char) :
    (collapseRuns false l).dropWhile (· == '-') = collapseRuns true l := by
  cases l with
  | nil => rfl
  | cons c cs =>
    by_cases hc : isSlugChar c
    · simp [collapseRuns, hc, List.dropWhile_cons, isSlugChar_ne_dash hc]
    · simp [collapseRuns, hc, List.dropWhile_cons, dropDash_collapseTrue]

/-- Slug characters pass through `collapseRuns` unchanged. -/
theorem collapse_false_append (rest : List Char) :
    ∀ w : List Char, (∀ c ∈ w, isSlugChar c = true) →
      collapseRuns false (w ++ rest) = w ++ collapseRuns false rest := by
  intro w
  induction w with
  | nil => intro _; rfl
  | cons c cs ih =>
    intro hw
    have hc : isSlugChar c = true := hw c (List.mem_cons_self c cs)
    simp only [List.cons_append, collapseRuns, if_pos hc, List.append_eq]
    rw [ih (fun d hd => hw d (List.mem_cons_of_mem c hd))]

/-- A string with no slug characters collapses to nothing once inside a run. -/
theorem collapseTrue_nil_of_no_slug :
    ∀ l : List Char, (∀ c ∈ l, isSlugChar c = false) → collapseRuns true l = [] := by
  intro l
  induction l with
  | nil => intro _; rfl
  | cons c cs ih =>
    intro h
    have hc : isSlugChar c = false := h c (List.mem_cons_self c cs)
    simp only [collapseRuns, hc]
    simp only [Bool.false_eq_true, if_false, if_true]
    exact ih (fun d hd => h d (List.mem_cons_of_mem c hd))

/-- A string with an empty word list has no slug characters. -/
theorem no_slug_of_alnumWords_nil :
    ∀ l : List Char, alnumWords l = [] → ∀ c ∈ l, isSlugChar c = false := by
  intro l
  induction l with
  | nil => simp
  | cons c cs ih =>
    intro h d hd
    by_cases hc : isSlugChar c
    · rw [alnumWords] at h
      simp [hc] at h
    · rw [alnumWords] at h
      simp only [hc, Bool.false_eq_true, if_false] at h
      rcases List.mem_cons.mp hd with rfl | hdcs
      · simpa using hc
      · exact ih h d hdcs

/-- Every word produced by `alnumWords` is nonempty (bounded-length form). -/
theorem alnumWords_ne_nil_aux :
    ∀ n : Nat, ∀ l : List Char, l.length ≤ n → ∀ w ∈ alnumWords l, w ≠ [] := by
  intro n
  induction n with
  | zero =>
    intro l hl
    have hnil : l = [] := List.eq_nil_of_length_eq_zero (Nat.le_zero.mp hl)
    subst hnil
    simp [alnumWords]
  | succ n ih =>
    intro l hl
    cases l with
    | nil => simp [alnumWords]
    | cons c cs =>
      by_cases hc : isSlugChar c
      · rw [alnumWords]
        simp only [hc, if_true]
        intro w hw
        rcases List.mem_cons.mp hw with rfl | hw'
        · simp
        · exact ih (cs.dropWhile isSlugChar)
            (le_trans (List.dropWhile_sublist isSlugChar).length_le
              (Nat.le_of_succ_le_succ hl)) w hw'
      · rw [alnumWords]
        simp only [hc, Bool.false_eq_true, if_false]
        exact ih cs (Nat.le_of_succ_le_succ hl)

/-- Every word produced by `alnumWords` is nonempty. -/
theorem alnumWords_ne_nil (l : List Char) : ∀ w ∈ alnumWords l, w ≠ [] :=
  alnumWords_ne_nil_aux l.length l (Nat.le_refl _)

/-- Joining a nonempty first word yields a nonempty list. -/
theorem joinWords_ne_nil {w : List Char} {ws : List (List Char)} (hw : w ≠ []) :
    joinWords (w :: ws) ≠ [] := by
  cases ws with
  | nil => simpa [joinWords] using hw
  | cons w2 ws' =>
    simp only [joinWords]
    intro h
    exact hw (List.append_eq_nil.mp h).1

/-- Stripping trailing dashes from a dash-free list is the identity. -/
theorem rdrop_no_dash {l : List Char} (h : ∀ a ∈ l, (a == '-') = false) :
    (l.reverse.dropWhile (· == '-')).reverse = l := by
  have hd : l.reverse.dropWhile (· == '-') = l.reverse := by
    cases hr : l.reverse with
    | nil => simp
    | cons a as =>
      have ha : a ∈ l := by
        rw [← List.mem_reverse, hr]
        exact List.mem_cons_self a as
      simp [List.dropWhile_cons, h a ha]
  rw [hd, List.reverse_reverse]

/-- A single trailing dash is removed by the trailing strip. -/
theorem rdrop_append_trailing_dash (a : List Char) :
    ((a ++ ['-']).reverse.dropWhile (· == '-')).reverse =
      (a.reverse.dropWhile (· == '-')).reverse := by
  simp [List.dropWhile_cons]

/-- Stripping trailing dashes distributes over a dash separator whose right
part survives the strip. -/
theorem rdrop_append_dash {a x : List Char} (hx : x.reverse.dropWhile (· == '-') ≠ []) :
    ((a ++ '-' :: x).reverse.dropWhile (· == '-')).reverse =
      a ++ '-' :: (x.reverse.dropWhile (· == '-')).reverse := by
  have h1 : (a ++ '-' :: x).reverse = x.reverse ++ ('-' :: a.reverse) := by
    simp
  rw [h1, List.dropWhile_append]
  have hxe : (x.reverse.dropWhile (· == '-')).isEmpty = false := by
    cases hh : x.reverse.dropWhile (· == '-') with
    | nil => exact absurd hh hx
    | cons _ _ => rfl
  rw [hxe]
  simp

/-- Stripping trailing dashes from the collapsed-in-run form yields the
maximal slug-character runs joined by single dashes (bounded-length form). -/
theorem rdrop_collapseTrue_aux :
    ∀ n : Nat, ∀ l : List Char, l.length ≤ n →
      ((collapseRuns true l).reverse.dropWhile (· == '-')).reverse =
        joinWords (alnumWords l) := by
  intro n
  induction n with
  | zero =>
    intro l hl
    have hnil : l = [] := List.eq_nil_of_length_eq_zero (Nat.le_zero.mp hl)
    subst hnil
    rw [alnumWords]
    rfl
  | succ n ih =>
    intro l hl
    cases l with
    | nil =>
      rw [alnumWords]
      rfl
    | cons c cs =>
      by_cases hc : isSlugChar c
      · have hcs : cs.takeWhile isSlugChar ++ cs.dropWhile isSlugChar = cs :=
          List.takeWhile_append_dropWhile isSlugChar cs
        have hw : ∀ d ∈ cs.takeWhile isSlugChar, isSlugChar d = true := by
          intro d hd
          exact List.mem_takeWhile_imp hd
        have hall : ∀ a ∈ (c :: cs.takeWhile isSlugChar), (a == '-') = false := by
          intro a ha
          rcases List.mem_cons.mp ha with rfl | ha'
          · exact isSlugChar_ne_dash hc
          · exact isSlugChar_ne_dash (hw a ha')
        have h1 : collapseRuns false cs =
            cs.takeWhile isSlugChar ++ collapseRuns false (cs.dropWhile isSlugChar) := by
          conv_lhs => rw [← hcs]
          exact collapse_false_append (cs.dropWhile isSlugChar) (cs.takeWhile isSlugChar) hw
        cases hdrop : cs.dropWhile isSlugChar with
        | nil =>
          have h4 : collapseRuns true (c :: cs) = c :: cs.takeWhile isSlugChar := by
            rw [hdrop] at h1
            simp [collapseRuns, hc, h1]
          rw [h4, rdrop_no_dash hall]
          rw [alnumWords]
          simp only [hc, if_true, hdrop]
          simp [alnumWords, joinWords]
        | cons d r' =>
          have hd : isSlugChar d = false := by
            have hhead := List.head?_dropWhile_not isSlugChar cs
            rw [hdrop] at hhead
            simpa using hhead
          have h4 : collapseRuns true (c :: cs) =
              (c :: cs.takeWhile isSlugChar) ++ '-' :: collapseRuns true r' := by
            rw [hdrop] at h1
            simp [collapseRuns, hc, h1, hd]
          have hlen : r'.length ≤ n := by
            have h5 : (d :: r').length ≤ cs.length := by
              rw [← hdrop]
              exact (List.dropWhile_sublist isSlugChar).length_le
            have h6 : cs.length ≤ n := Nat.le_of_succ_le_succ hl
            have h7 : r'.length + 1 ≤ n := le_trans h5 h6
            omega
          have ihr := ih r' hlen
          have h2 : alnumWords (c :: cs) =
              (c :: cs.takeWhile isSlugChar) :: alnumWords r' := by
            rw [alnumWords]
            simp only [hc, if_true, hdrop]
            rw [alnumWords]
            simp [hd]
          rw [h4, h2]
          cases hws : alnumWords r' with
          | nil =>
            have hct : collapseRuns true r' =
                [] := collapseTrue_nil_of_no_slug r' (no_slug_of_alnumWords_nil r' hws)
            rw [hct]
            have hsh : (c :: cs.takeWhile isSlugChar) ++ '-' :: ([] : List Char) =
                (c :: cs.takeWhile isSlugChar) ++ ['-'] := rfl
            rw [hsh, rdrop_append_trailing_dash, rdrop_no_dash hall]
            simp [joinWords]
          | cons w2 ws' =>
            have hw2ne : w2 ≠ [] :=
              alnumWords_ne_nil r' w2 (by rw [hws]; exact List.mem_cons_self _ _)
            have hjw : joinWords (w2 :: ws') ≠ [] := joinWords_ne_nil hw2ne
            have hxne : (collapseRuns true r').reverse.dropWhile (· == '-') ≠ [] := by
              intro hh
              apply hjw
              rw [← hws, ← ihr, hh]
              rfl
            rw [rdrop_append_dash hxne, ihr, hws]
            simp [joinWords]
      · have h4 : collapseRuns true (c :: cs) = collapseRuns true cs := by
          simp [collapseRuns, hc]
        have h2 : alnumWords (c :: cs) = alnumWords cs := by
          rw [alnumWords]
          simp [hc]
        rw [h4, h2]
        exact ih cs (Nat.le_of_succ_le_succ hl)

/-- The slug implementation agrees with its specification reading: maximal
alphanumeric runs of the lowercased title joined by single dashes, capped. -/
theorem generate_slug_eq_spec (title : String) : generate_slug title = slug_spec title := by
  unfold generate_slug slug_spec stripDashes
  rw [dropDash_collapseFalse]
  rw [rdrop_collapseTrue_aux (title.data.map Char.toLower).length _ (Nat.le_refl _)]

/-- C9: with no caller-supplied slug and no collision, the draft derives its
slug by lowercasing the title, collapsing every run of non-alphanumeric
characters to a single dash, trimming leading and trailing dashes, and
capping at 50 characters (stated as agreement with the specification reading
`slug_spec` together with the cap); in particular "My Test!!" yields
`my-test` and the archive path is `{base}/{YYYY-MM}/my-test/`. -/
theorem create_draft_slug_derivation (title base : String) (d : DateYM) :
    draft_slug none title false "ffffff" = generate_slug title
    ∧ generate_slug title = slug_spec title
    ∧ (generate_slug title).length ≤ 50
    ∧ draft_slug none "My Test!!" false "ffffff" = "my-test"
    ∧ build_archive_path base d (draft_slug none "My Test!!" false "ffffff") =
        rstripSlash base ++ "/" ++ pad4 d.year ++ "-" ++ pad2 d.month ++ "/" ++ "my-test" ++ "/" := by
  refine ⟨rfl, generate_slug_eq_spec title, ?_, ?_, ?_⟩
  · have hlen : (generate_slug title).length =
        ((stripDashes (collapseRuns false (title.data.map Char.toLower))).take 50).length := rfl
    rw [hlen, List.length_take]
    exact Nat.min_le_left _ _
  · rfl
  · rfl

/-- Outcome schedule of the database calls a single
`CollectionService.finalize_collection` invocation makes: the
status=VERIFYING write issued before the `try` block, the results write and
the re-fetch inside it, and the FAILED write issued by either `except`
handler.  `true` means the call succeeds, `false` means it raises. -/
structure FinalizeEnv where
  verifyingOk : Bool
  resultsOk : Bool
  fetchOk : Bool
  failOk : Bool
deriving DecidableEq

/-- Error surfaced by a finalize invocation: `collection` is a raised
`CollectionServiceError`, `collaborator` an exception that escapes
`finalize_collection` uncaught (a database call raised outside the `try`
block or inside an `except` handler). -/
inductive CollectionErr
  | collection (msg : String)
  | collaborator (msg : String)
deriving DecidableEq

/-- The synthetic message of the generic `except Exception` clause. -/
def verifyFailMsg (e : String) : String := "Verification failed: " ++ e

/-- An `except` handler of `finalize_collection`: write status=FAILED with
the single synthetic message, then re-raise a `CollectionServiceError`.  The
handler's own write may itself raise, in which case that error propagates
instead and the document keeps the state it had when the handler started. -/
def finalize_fail_path (env : FinalizeEnv) (msg : String) (c : CollectionRec) :
    Option CollectionRec × Except CollectionErr CollectionRec :=
  if !env.failOk then
    (some c, .error (.collaborator "database write failed"))
  else
    (some { c with status := CollectionStatus.failed, verification_errors := [msg] },
     .error (.collection msg))

/-- `CollectionService.finalize_collection` over the schedule `env`, with
every awaited database call fallible.  The steps mirror the source: not-found
check, status=VERIFYING write (before the `try` block, so its failure
propagates raw and leaves the document untouched), the two listings, the
verification computation, the results write, the re-fetch, and the `except`
handlers routed through `finalize_fail_path`.  A listing error carries the
`GlobusServiceError` message shape, an error at the results write or the
re-fetch the generic `Verification failed:` shape. -/
def finalize_collection_full (env : FinalizeEnv) (coll : Option CollectionRec)
    (raw_listing root_listing : Except String (List FsEntry)) (now : Nat) :
    Option CollectionRec × Except CollectionErr CollectionRec :=
  match coll with
  | none => (none, .error (.collection "Collection not found"))
  | some c0 =>
    if !env.verifyingOk then
      (some c0, .error (.collaborator "database write failed"))
    else
      let c := { c0 with status := CollectionStatus.verifying }
      match raw_listing with
      | .error e => finalize_fail_path env (globusFailMsg e) c
      | .ok raw_files =>
        match root_listing with
        | .error e => finalize_fail_path env (globusFailMsg e) c
        | .ok root_files =>
          let root_file_names :=
            (root_files.filter (fun f => f.etype == EntryType.file)).map (·.name)
          let has_manifest := root_file_names.contains "manifest.json"
          let raw_file_list := raw_files.filter (fun f => f.etype == EntryType.file)
          let raw_file_count := raw_file_list.length
          let total_size := (raw_file_list.map (·.size)).sum
          let warnings := if !has_manifest then [missingManifestMsg] else []
          let verification_errors := if raw_file_count == 0 then [emptyRawMsg] else []
          let status := if verification_errors.isEmpty then CollectionStatus.sealed
                        else CollectionStatus.failed
          let all_messages := verification_errors ++ warnings
          let updated := { c with
            status := status
            has_manifest := has_manifest
            has_package_zip := false
            total_size_bytes := some total_size
            actual_artifact_count := some raw_file_count
            verified_at := some now
            verification_errors := all_messages
            sealed_at := if status == CollectionStatus.sealed then some now else c.sealed_at }
          if !env.resultsOk then
            finalize_fail_path env (verifyFailMsg "database write failed") c
          else if !env.fetchOk then
            finalize_fail_path env (verifyFailMsg "database read failed") updated
          else
            (some updated, .ok updated)

/-- The write-infallible model is the state projection of the full model on
the all-success schedule. -/
theorem finalize_collection_as_full (coll : Option CollectionRec)
    (raw root : Except String (List FsEntry)) (now : Nat) :
    (finalize_collection coll raw root now).1 =
      (finalize_collection_full ⟨true, true, true, true⟩ coll raw root now).1 := by
  rcases coll with _ | c <;> rcases raw with e | rawE <;> rcases root with e' | rootE <;> rfl

/-- The schedule on which the raw listing raises and the except handler's
FAILED write then raises as well. -/
def finalizeDoubleFaultEnv : FinalizeEnv :=
  { verifyingOk := true, resultsOk := true, fetchOk := true, failOk := false }

/-- C3 counterexample: the raw listing raises a `GlobusServiceError` and the
`except` handler's own FAILED write then raises too; the handler's exception
escapes `finalize_collection` uncaught (no `CollectionServiceError`) and the
stored document keeps the VERIFYING status written before the `try` block —
finalize terminates leaving the collection in VERIFYING. -/
theorem finalize_verifying_counterexample :
    ((finalize_collection_full finalizeDoubleFaultEnv (some sampleCollection)
        (.error "boom") (.ok []) 7).1.map (·.status) = some CollectionStatus.verifying)
    ∧ ((finalize_collection_full finalizeDoubleFaultEnv (some sampleCollection)
        (.error "boom") (.ok []) 7).2 = .error (.collaborator "database write failed")) :=
  ⟨rfl, rfl⟩

/-- C3 (amended): on every schedule whose VERIFYING write and except-handler
write succeed, any exception raised during verification — a directory-client
error, a failure of the results write, or a failure of the re-fetch — forces
status FAILED with a single synthetic error message and a re-raised
`CollectionServiceError`, and finalize never terminates leaving the
collection in VERIFYING; if the VERIFYING write itself raises, the document
is left untouched and the error propagates raw. -/
theorem finalize_exception_path_full (env : FinalizeEnv) (c : CollectionRec)
    (raw root : Except String (List FsEntry)) (now : Nat) (e : String)
    (rawE rootE : List FsEntry)
    (hv : env.verifyingOk = true) (hf : env.failOk = true) :
    ((finalize_collection_full env (some c) raw root now).1.map (·.status) ≠
      some CollectionStatus.verifying)
    ∧ (raw = .error e →
        (finalize_collection_full env (some c) raw root now).1.map (·.status) =
          some CollectionStatus.failed
        ∧ (finalize_collection_full env (some c) raw root now).1.map (·.verification_errors) =
            some [globusFailMsg e]
        ∧ (finalize_collection_full env (some c) raw root now).2 =
            .error (.collection (globusFailMsg e)))
    ∧ (raw = .ok rawE → root = .error e →
        (finalize_collection_full env (some c) raw root now).1.map (·.status) =
          some CollectionStatus.failed
        ∧ (finalize_collection_full env (some c) raw root now).1.map (·.verification_errors) =
            some [globusFailMsg e]
        ∧ (finalize_collection_full env (some c) raw root now).2 =
            .error (.collection (globusFailMsg e)))
    ∧ (raw = .ok rawE → root = .ok rootE → env.resultsOk = false →
        (finalize_collection_full env (some c) raw root now).1.map (·.status) =
          some CollectionStatus.failed
        ∧ (finalize_collection_full env (some c) raw root now).1.map (·.verification_errors) =
            some [verifyFailMsg "database write failed"]
        ∧ (finalize_collection_full env (some c) raw root now).2 =
            .error (.collection (verifyFailMsg "database write failed")))
    ∧ (raw = .ok rawE → root = .ok rootE → env.resultsOk = true → env.fetchOk = false →
        (finalize_collection_full env (some c) raw root now).1.map (·.status) =
          some CollectionStatus.failed
        ∧ (finalize_collection_full env (some c) raw root now).1.map (·.verification_errors) =
            some [verifyFailMsg "database read failed"]
        ∧ (finalize_collection_full env (some c) raw root now).2 =
            .error (.collection (verifyFailMsg "database read failed"))) := by
  refine ⟨?_, ?_, ?_, ?_, ?_⟩
  · rcases raw with e' | rawE' <;> rcases root with e'' | rootE' <;>
      cases hro : env.resultsOk <;> cases hfe : env.fetchOk <;>
      simp [finalize_collection_full, finalize_fail_path, hv, hf, hro, hfe] <;>
      split <;> simp
  · intro hr
    subst hr
    simp [finalize_collection_full, finalize_fail_path, hv, hf]
  · intro hr hroot
    subst hr
    subst hroot
    simp [finalize_collection_full, finalize_fail_path, hv, hf]
  · intro hr hroot hres
    subst hr
    subst hroot
    simp [finalize_collection_full, finalize_fail_path, hv, hf, hres]
  · intro hr hroot hres hfe
    subst hr
    subst hroot
    simp [finalize_collection_full, finalize_fail_path, hv, hf, hres, hfe]

/-- C3 witness (amended claim): a raw-listing failure on a draft collection
with both handler-relevant writes succeeding. -/
theorem finalize_exception_path_full_witness :
    ((finalize_collection_full ⟨true, true, true, true⟩ (some sampleCollection)
        (.error "boom") (.ok []) 7).1.map (·.status) ≠ some CollectionStatus.verifying)
    ∧ ((finalize_collection_full ⟨true, true, true, true⟩ (some sampleCollection)
        (.error "boom") (.ok []) 7).1.map (·.status) = some CollectionStatus.failed
      ∧ (finalize_collection_full ⟨true, true, true, true⟩ (some sampleCollection)
          (.error "boom") (.ok []) 7).1.map (·.verification_errors) =
            some [globusFailMsg "boom"]
      ∧ (finalize_collection_full ⟨true, true, true, true⟩ (some sampleCollection)
          (.error "boom") (.ok []) 7).2 = .error (.collection (globusFailMsg "boom"))) :=
  ⟨(finalize_exception_path_full ⟨true, true, true, true⟩ sampleCollection (.error "boom")
      (.ok []) 7 "boom" [] [] rfl rfl).1,
   (finalize_exception_path_full ⟨true, true, true, true⟩ sampleCollection (.error "boom")
      (.ok []) 7 "boom" [] [] rfl rfl).2.1 rfl⟩
